import Mathlib

/-!
Shallow embedding of the todolist backend (Express + MySQL) relevant to the
authentication/authorization core and the todos CRUD routes.

Conventions of the embedding:
* `WHERE col = ?` on a string column is modelled as exact string equality
  (collation subtleties of MySQL are out of scope).
* JSON request fields that may be absent are `Option`; JavaScript truthiness
  of a string (`!x` fails for `undefined` and `""`) is `truthy`.
* `affectedRows` of a DELETE is the number of deleted rows; for UPDATE it is
  modelled as the number of matched rows (MySQL counts changed rows, which
  coincides on every zero-match path used below).
* Auto-increment ids are a `next…Id` counter carried in the database state.
-/

namespace TodoBackend

/-- JavaScript truthiness of an optional string field: present and nonempty. -/
def truthy : Option String → Bool
  | none => false
  | some s => !(s == "")

/-- JavaScript truthiness of an optional integer field (0 is falsy). -/
def truthyInt : Option Int → Bool
  | none => false
  | some r => !(r == 0)

/-- ASCII whitespace, standing for the JavaScript `\s` character class. -/
def isJsSpace (c : Char) : Bool :=
  c == ' ' || c == '\t' || c == '\n' || c == '\r'

/-- JavaScript `String.prototype.trim()`: strip leading and trailing
whitespace (structural on the character list, so it evaluates in the
kernel). -/
def jsTrim (s : String) : String :=
  ⟨((s.toList.dropWhile isJsSpace).reverse.dropWhile isJsSpace).reverse⟩

/-! ## Data model: rows and database state -/

/-- A row of the `users` table (timestamps omitted; no claim mentions them).
`password` stores the bcrypt hash, `role` is 1 = admin, 2 = user. -/
structure UserRow where
  id : Nat
  name : String
  email : String
  phone_number : Option String
  password : String
  role : Int
deriving DecidableEq, Repr

/-- A row of the `todos` table in the owner-scoped variant
(`user_id` foreign key; `created_at` omitted, insertion order stands in). -/
structure TodoRow where
  id : Nat
  user_id : Nat
  title : String
  completed : Bool
deriving DecidableEq, Repr

/-- The relational store: the two tables plus auto-increment counters. -/
structure DB where
  users : List UserRow
  todos : List TodoRow
  nextUserId : Nat
  nextTodoId : Nat
deriving DecidableEq, Repr

/-! ## Token service -/

/-- The claim set embedded in a token: `{userId, email, role}`
(`jwt.sign({ userId: user.id, email: user.email, role: user.role }, …)`). -/
structure Claims where
  userId : Nat
  email : String
  role : Int
deriving DecidableEq, Repr

/-- A decoded token: claims, issued-at, expiry (seconds), and its signature,
modelled as the secret the token was signed with. -/
structure Token where
  claims : Claims
  iat : Nat
  exp : Nat
  sig : String
deriving DecidableEq, Repr

/-- `issue`: the `jwt.sign` call of POST /api/auth/login
(src/backend/routes/auth.js): embeds `userId`, `email`, `role`, signs with the
process-wide secret, and sets `expiresIn: '24h'`, i.e. expiry 86400 seconds
after issuance. -/
def issue (userId : Nat) (email : String) (role : Int)
    (secret : String) (now : Nat) : Token :=
  { claims := { userId := userId, email := email, role := role }
  , iat := now
  , exp := now + 86400
  , sig := secret }

/-- A raw bearer token as received on the wire: either it decodes to a
`Token` or it is garbage that cannot be parsed. -/
inductive RawToken where
  | wellFormed (t : Token)
  | garbage
deriving DecidableEq, Repr

/-- The three verification failure classes of the token service. -/
inductive VerifyError where
  | malformed
  | signatureInvalid
  | expired
deriving DecidableEq, Repr

/-- Modelled from the spec: the token service's `verify` (performed by the
jsonwebtoken library, whose code is not part of this repository): fails with
`Malformed` if the token cannot be parsed/decoded, `SignatureInvalid` if the
signature does not match the secret, `Expired` if the current time exceeds the
embedded expiry; otherwise returns the embedded claims. -/
def verify (r : RawToken) (secret : String) (now : Nat) :
    Except VerifyError Claims :=
  match r with
  | .garbage => .error .malformed
  | .wellFormed t =>
    if t.sig ≠ secret then .error .signatureInvalid
    else if t.exp < now then .error .expired
    else .ok t.claims

/-! ## Auth middleware -/

/-- What the middleware finds in the `Authorization` header: no bearer token,
or a raw token. -/
inductive BearerInput where
  | absent
  | present (raw : RawToken)
deriving DecidableEq, Repr

/-- Outcome of the middleware: short-circuit with an HTTP status, or continue
with the verified claims attached to the request context. -/
inductive AuthOutcome where
  | reject (status : Nat) (msg : String)
  | authed (c : Claims)
deriving DecidableEq, Repr

/-- Modelled from the spec: the auth middleware `authenticateToken`
(src/middleware/auth.js is required by every protected route but its file is
not in the repository snapshot): absent bearer token → 401; any verification
error → 403; success → attach the claims and continue.  The function takes no
database state: the middleware performs no database access. -/
def authenticateToken (h : BearerInput) (secret : String) (now : Nat) :
    AuthOutcome :=
  match h with
  | .absent => .reject 401 "no token"
  | .present raw =>
    match verify raw secret now with
    | .error _ => .reject 403 "invalid/expired token"
    | .ok c => .authed c

/-! ## Password hasher -/

/-- Modelled from the spec: the password hasher's `hash` (bcrypt, external
library): a deterministic stand-in for the salted one-way hash; only the
contract `compare p (hash q) = (p = q)` is used. -/
def bcryptHash (plaintext : String) : String :=
  "bcrypt$10$" ++ plaintext

/-- Modelled from the spec: the password hasher's `verify`
(`bcrypt.compare`): true exactly when the plaintext hashes to the stored
hash string. -/
def bcryptCompare (plaintext hash : String) : Bool :=
  bcryptHash plaintext == hash

/-! ## Response shapes -/

/-- The public user object returned by login (password hash excluded). -/
structure PublicUser where
  id : Nat
  name : String
  email : String
  role : Int
deriving DecidableEq, Repr

/-- JSON response bodies used by the modelled handlers. -/
inductive Body where
  | err (msg : String)
  | msg (m : String)
  | todos (l : List TodoRow)
  | createdTodo (m : String) (t : TodoRow)
  | registered (m : String) (userId : Nat)
  | loginOk (m : String) (token : Token) (u : PublicUser)
deriving DecidableEq, Repr

/-- An HTTP response: status code and JSON body. -/
structure Resp where
  status : Nat
  body : Body
deriving DecidableEq, Repr

/-! ## POST /api/auth/register (src/backend/routes/auth.js, validated variant) -/

/-- The JSON body of a registration request; absent fields are `none`. -/
structure RegPayload where
  name : Option String
  email : Option String
  phone_number : Option String
  password : Option String
  role : Option Int
deriving DecidableEq, Repr

/-- The unanchored JavaScript regex test `/\S+@\S+\.\S+/.test(email)`: some
substring of `email` is a nonspace run, `@`, a nonspace run, `.`, a nonspace
run.  Positions `i` (the `@`) and `j` (the `.`) witness the match: a nonspace
character directly before `i` and directly after `j`, and only nonspace
characters strictly between them. -/
def emailTest (s : String) : Bool :=
  let cs := s.toList
  let n := cs.length
  (List.range n).any fun i =>
    (List.range n).any fun j =>
      decide (0 < i) && decide (i + 1 < j) && decide (j + 1 < n) &&
      (cs.getD i ' ' == '@') && (cs.getD j ' ' == '.') &&
      !(isJsSpace (cs.getD (i - 1) ' ')) && !(isJsSpace (cs.getD (j + 1) ' ')) &&
      ((List.range n).all fun k =>
        decide (k ≤ i) || decide (j ≤ k) || !(isJsSpace (cs.getD k ' ')))

/-- A character admitted by the phone regex body `[\d\s-()]`. -/
def isPhoneChar (c : Char) : Bool :=
  c.isDigit || isJsSpace c || c == '-' || c == '(' || c == ')'

/-- The anchored JavaScript regex test `/^\+?[\d\s-()]+$/.test(phone)`:
an optional leading `+` followed by one or more digits, whitespace,
hyphens or parentheses. -/
def phoneTest (s : String) : Bool :=
  match s.toList with
  | [] => false
  | '+' :: rest => !rest.isEmpty && rest.all isPhoneChar
  | c :: rest => isPhoneChar c && rest.all isPhoneChar

/-- `phone_number.replace(/\D/g, '').length`: the number of digit characters. -/
def digitCount (s : String) : Nat :=
  (s.toList.filter Char.isDigit).length

/-- The validation chain of POST /api/auth/register, exactly in source order;
returns the error message of the first failing check, or `none` if the payload
is accepted.  Field reads default absent fields as falsy/empty, matching the
destructured `undefined` values. -/
def validateRegistration (p : RegPayload) : Option String :=
  if !(truthy p.name && truthy p.email && truthy p.phone_number &&
       truthy p.password && truthyInt p.role) then
    some "All fields are required"
  else if (jsTrim (p.name.getD "")).length < 2 then
    some "Name must be at least 2 characters"
  else if !(emailTest (p.email.getD "")) then
    some "Please enter a valid email address"
  else if (p.password.getD "").length < 6 then
    some "Password must be at least 6 characters"
  else if !(phoneTest (p.phone_number.getD "")) then
    some "Please enter a valid phone number"
  else if digitCount (p.phone_number.getD "") > 11 then
    some "Phone number must be maximum 11 digits"
  else if !(p.role.getD 0 == 1 || p.role.getD 0 == 2) then
    some "Invalid role. Must be 1 (admin) or 2 (user)"
  else
    none

/-- The row inserted by a successful registration: trimmed name and email,
raw phone number, bcrypt-hashed password, the requested role, auto-increment
id. -/
def regRow (s : DB) (p : RegPayload) : UserRow :=
  { id := s.nextUserId
  , name := jsTrim (p.name.getD "")
  , email := jsTrim (p.email.getD "")
  , phone_number := p.phone_number
  , password := bcryptHash (p.password.getD "")
  , role := p.role.getD 0 }

/-- POST /api/auth/register: run the validation chain; on success check
`SELECT * FROM users WHERE email = ?` with the *raw* email and reject a
duplicate with 400; otherwise insert the new row (trimmed name/email) and
answer 201 with the fresh id.  The route has no auth middleware: the function
takes no token or claims. -/
def register (s : DB) (p : RegPayload) : Resp × DB :=
  match validateRegistration p with
  | some e => (⟨400, .err e⟩, s)
  | none =>
    if s.users.any (fun u => u.email == p.email.getD "") then
      (⟨400, .err "Email already registered"⟩, s)
    else
      ( ⟨201, .registered "User registered successfully!" s.nextUserId⟩
      , { s with
            users := s.users ++ [regRow s p]
            nextUserId := s.nextUserId + 1 } )

/-! ## POST /api/auth/login (src/backend/routes/auth.js) -/

/-- POST /api/auth/login: missing email/password → 400; look up
`SELECT * FROM users WHERE email = ?` (first row, `users[0]`); absent user or
failed `bcrypt.compare` → the same generic 401 body; success → 200 with a
fresh token from `jwt.sign` and the user object without the password hash. -/
def login (s : DB) (secret : String) (now : Nat)
    (email password : Option String) : Resp :=
  if !(truthy email && truthy password) then
    ⟨400, .err "Email and password are required"⟩
  else
    let e := email.getD ""
    let pw := password.getD ""
    match s.users.find? (fun u => u.email == e) with
    | none => ⟨401, .err "Invalid email or password"⟩
    | some u =>
      if !(bcryptCompare pw u.password) then
        ⟨401, .err "Invalid email or password"⟩
      else
        ⟨200, .loginOk "Login successful!"
          (issue u.id u.email u.role secret now)
          { id := u.id, name := u.name, email := u.email, role := u.role }⟩

/-! ## Owner-scoped /api/todos router (src/unnamed/part_003) -/

/-- The JSON `todo` object of a create request.  The handler destructures only
`todo.title` and `todo.completed`; a client-supplied `user_id` field is
carried here to show it is never read. -/
structure TodoObj where
  title : Option String
  completed : Option Bool
  user_id : Option Nat
deriving DecidableEq, Repr

/-- GET /api/todos: `SELECT * FROM todos WHERE user_id = ? ORDER BY
created_at DESC` with the token's user id; newest-first is modelled as
reverse insertion order. -/
def listTodos (uid : Nat) (s : DB) : Resp :=
  ⟨200, .todos ((s.todos.filter (fun t => t.user_id == uid)).reverse)⟩

/-- POST /api/todos: missing `todo` or falsy `todo.title` → 400; otherwise
insert `(user_id, title, completed || false)` where `user_id` is the token's
user id, and answer 201 echoing the created row. -/
def createTodo (uid : Nat) (b : Option TodoObj) (s : DB) : Resp × DB :=
  match b with
  | none => (⟨400, .err "Todo title is required"⟩, s)
  | some todo =>
    if !(truthy todo.title) then (⟨400, .err "Todo title is required"⟩, s)
    else
      let row : TodoRow :=
        { id := s.nextTodoId
        , user_id := uid
        , title := todo.title.getD ""
        , completed := todo.completed.getD false }
      ( ⟨201, .createdTodo "Todo created!" row⟩
      , { s with
            todos := s.todos ++ [row]
            nextTodoId := s.nextTodoId + 1 } )

/-- PUT /api/todos/:id: choose the UPDATE statement from which of
`title`/`completed` are defined (none → 400); every variant carries
`WHERE id = ? AND user_id = ?`; zero affected rows → 404, else 200. -/
def updateTodo (uid id : Nat) (title : Option String)
    (completed : Option Bool) (s : DB) : Resp × DB :=
  if title == none && completed == none then
    (⟨400, .err "No update data provided"⟩, s)
  else
    let matched := s.todos.filter (fun t => t.id == id && t.user_id == uid)
    if matched.length == 0 then
      (⟨404, .err "Todo not found or unauthorized"⟩, s)
    else
      ( ⟨200, .msg "Todo updated!"⟩
      , { s with
            todos := s.todos.map (fun t =>
              if t.id == id && t.user_id == uid then
                { t with
                    title := title.getD t.title
                    completed := completed.getD t.completed }
              else t) } )

/-- DELETE /api/todos/:id: `DELETE FROM todos WHERE id = ? AND user_id = ?`;
zero affected rows → 404, else 200. -/
def deleteTodo (uid id : Nat) (s : DB) : Resp × DB :=
  let matched := s.todos.filter (fun t => t.id == id && t.user_id == uid)
  if matched.length == 0 then
    (⟨404, .err "Todo not found or unauthorized"⟩, s)
  else
    ( ⟨200, .msg "Todo deleted!"⟩
    , { s with
          todos := s.todos.filter (fun t => !(t.id == id && t.user_id == uid)) } )

/-- HTTP method of a request to the todos router. -/
inductive Method where
  | get
  | post
  | put
  | delete
deriving DecidableEq, Repr

/-- The request body fields the todos router reads: `req.body.todo` (POST)
and `req.body.title` / `req.body.completed` (PUT). -/
structure TodosReqBody where
  todo : Option TodoObj
  title : Option String
  completed : Option Bool
deriving DecidableEq, Repr

/-- Route dispatch of the owner-scoped todos router for an authenticated user:
the four registered routes are GET `/todos`, POST `/todos`, PUT `/todos/:id`,
DELETE `/todos/:id` (`pathId = some id` for the `/:id` forms).  Any other
method/path pair — in particular GET `/todos/:id`, which part_003 never
registers — falls through to Express's default 404. -/
def todosDispatch (m : Method) (pathId : Option Nat) (uid : Nat)
    (body : TodosReqBody) (s : DB) : Resp × DB :=
  match m, pathId with
  | .get, none => (listTodos uid s, s)
  | .post, none => createTodo uid body.todo s
  | .put, some id => updateTodo uid id body.title body.completed s
  | .delete, some id => deleteTodo uid id s
  | _, _ => (⟨404, .err "Not found"⟩, s)

/-! ## DELETE /api/admin/users/:id (src/backend/routes/admin.js) -/

/-- DELETE /api/admin/users/:id behind `authenticateToken` and `checkAdmin`:
non-admin role → 403; `parseInt(id) === adminId` → 400 self-protection;
`DELETE FROM users WHERE id = ?` with zero affected rows → 404; else 200. -/
def adminDeleteUser (c : Claims) (targetId : Nat) (s : DB) : Resp × DB :=
  if c.role ≠ 1 then
    (⟨403, .err "Access denied. Admin only."⟩, s)
  else if targetId = c.userId then
    (⟨400, .err "You cannot delete your own account"⟩, s)
  else
    let affected := (s.users.filter (fun u => u.id == targetId)).length
    if affected == 0 then
      (⟨404, .err "User not found"⟩, s)
    else
      ( ⟨200, .msg "User deleted successfully"⟩
      , { s with users := s.users.filter (fun u => !(u.id == targetId)) } )

/-! ## Spec-shaped view of the registration validation order

The spec states the validation as an ordered rule list where the first
failing rule determines the 400 message.  `registrationRules` lists the
rules in the spec's order; `firstFailure` is the generic
first-failing-rule-wins combinator. -/

/-- Rule 1: required fields present (name, email, phone_number, password,
role all truthy). -/
def ruleRequired (p : RegPayload) : Option String :=
  if !(truthy p.name && truthy p.email && truthy p.phone_number &&
       truthy p.password && truthyInt p.role) then
    some "All fields are required"
  else none

/-- Rule 2: trimmed name length at least 2. -/
def ruleName (p : RegPayload) : Option String :=
  if (jsTrim (p.name.getD "")).length < 2 then
    some "Name must be at least 2 characters"
  else none

/-- Rule 3: email matches the basic `local@domain` shape. -/
def ruleEmail (p : RegPayload) : Option String :=
  if !(emailTest (p.email.getD "")) then
    some "Please enter a valid email address"
  else none

/-- Rule 4: password length at least 6. -/
def rulePassword (p : RegPayload) : Option String :=
  if (p.password.getD "").length < 6 then
    some "Password must be at least 6 characters"
  else none

/-- Rule 5: phone number matches the permissive phone-character pattern. -/
def rulePhonePattern (p : RegPayload) : Option String :=
  if !(phoneTest (p.phone_number.getD "")) then
    some "Please enter a valid phone number"
  else none

/-- Rule 6: phone number collapses to at most 11 digits. -/
def rulePhoneDigits (p : RegPayload) : Option String :=
  if digitCount (p.phone_number.getD "") > 11 then
    some "Phone number must be maximum 11 digits"
  else none

/-- Rule 7: role lies in the closed set {1 (Admin), 2 (Standard)}. -/
def ruleRole (p : RegPayload) : Option String :=
  if !(p.role.getD 0 == 1 || p.role.getD 0 == 2) then
    some "Invalid role. Must be 1 (admin) or 2 (user)"
  else none

/-- The registration validation rules in the order the spec prescribes. -/
def registrationRules : List (RegPayload → Option String) :=
  [ruleRequired, ruleName, ruleEmail, rulePassword,
   rulePhonePattern, rulePhoneDigits, ruleRole]

/-- First-failing-rule-wins: the error of the first rule that fails. -/
def firstFailure : List (RegPayload → Option String) → RegPayload → Option String
  | [], _ => none
  | r :: rs, p =>
    match r p with
    | some e => some e
    | none => firstFailure rs p

/-! ## Theorems -/

/-- C2: for every user (id, email, role) and every verification time strictly
before the embedded expiry (24 hours after issuance), verifying the token the
login route issues returns exactly the claims embedded at issuance:
`verify (issue u) = claims u` (round-trip law). -/
theorem verify_issue_roundtrip (id : Nat) (email : String) (role : Int)
    (secret : String) (tIss now : Nat) (h : now < tIss + 86400) :
    verify (.wellFormed (issue id email role secret tIss)) secret now
      = .ok { userId := id, email := email, role := role } := by
  simp only [verify, issue, ne_eq, not_true_eq_false, if_false]
  rw [if_neg (by omega)]

/-- Witness for C2 at a concrete user and time. -/
theorem verify_issue_roundtrip_witness :
    (100 : Nat) < 0 + 86400 ∧
    verify (.wellFormed (issue 7 "jo@x.com" 2 "topsecret" 0)) "topsecret" 100
      = .ok { userId := 7, email := "jo@x.com", role := 2 } :=
  ⟨by decide,
   verify_issue_roundtrip 7 "jo@x.com" 2 "topsecret" 0 100 (by decide)⟩

/-- C8: a token verified after its embedded expiry (issuance + 24 hours) is
rejected with the `Expired` classification, which is a failure class distinct
from `Malformed` and `SignatureInvalid`. -/
theorem verify_expired_classified (id : Nat) (email : String) (role : Int)
    (secret : String) (tIss now : Nat) (h : tIss + 86400 < now) :
    verify (.wellFormed (issue id email role secret tIss)) secret now
        = .error .expired
      ∧ VerifyError.expired ≠ VerifyError.malformed
      ∧ VerifyError.expired ≠ VerifyError.signatureInvalid := by
  refine ⟨?_, by decide, by decide⟩
  simp only [verify, issue, ne_eq, not_true_eq_false, if_false]
  rw [if_pos h]

/-- Witness for C8: a token issued at time 0 and verified 25 hours later. -/
theorem verify_expired_classified_witness :
    (0 : Nat) + 86400 < 90000 ∧
    (verify (.wellFormed (issue 7 "jo@x.com" 2 "topsecret" 0)) "topsecret" 90000
        = .error .expired
      ∧ VerifyError.expired ≠ VerifyError.malformed
      ∧ VerifyError.expired ≠ VerifyError.signatureInvalid) :=
  ⟨by decide,
   verify_expired_classified 7 "jo@x.com" 2 "topsecret" 0 90000 (by decide)⟩

/-- C4: the auth middleware rejects with 401 when no bearer token is present,
rejects with 403 whenever the token service's `verify` fails for any reason,
and on success attaches exactly the verified claims and continues; it takes no
database state, so it performs no database access. -/
theorem authenticateToken_cases (secret : String) (now : Nat) :
    authenticateToken .absent secret now = .reject 401 "no token"
    ∧ (∀ raw e, verify raw secret now = .error e →
        authenticateToken (.present raw) secret now
          = .reject 403 "invalid/expired token")
    ∧ (∀ raw c, verify raw secret now = .ok c →
        authenticateToken (.present raw) secret now = .authed c) := by
  refine ⟨rfl, ?_, ?_⟩ <;> intro raw x h <;> simp [authenticateToken, h]

/-- Witness for C4: the three middleware outcomes at concrete inputs —
no token, an unparseable token, and a valid token from `issue`. -/
theorem authenticateToken_cases_witness :
    authenticateToken .absent "topsecret" 0 = .reject 401 "no token"
    ∧ authenticateToken (.present .garbage) "topsecret" 0
        = .reject 403 "invalid/expired token"
    ∧ authenticateToken (.present (.wellFormed (issue 1 "a@b.c" 1 "topsecret" 0)))
        "topsecret" 50 = .authed { userId := 1, email := "a@b.c", role := 1 } := by
  obtain ⟨h1, h2, h3⟩ := authenticateToken_cases "topsecret" 0
  obtain ⟨_, _, h3'⟩ := authenticateToken_cases "topsecret" 50
  exact ⟨h1, h2 .garbage .malformed rfl,
         h3' (.wellFormed (issue 1 "a@b.c" 1 "topsecret" 0))
           { userId := 1, email := "a@b.c", role := 1 } (by rfl)⟩

/-- The empty database right after startup (auto-increment counters at 1). -/
def emptyDB : DB :=
  { users := [], todos := [], nextUserId := 1, nextTodoId := 1 }

/-- C6: the registration validation is exactly the ordered rule chain
required-fields, name ≥ 2, email shape, password ≥ 6, phone pattern, phone
digits ≤ 11, role ∈ {1, 2}, with the first failing rule's message winning;
on a failing payload `register` answers 400 with that message and leaves the
database untouched (no persistence before validation). -/
theorem validateRegistration_first_failure (s : DB) (p : RegPayload) :
    validateRegistration p = firstFailure registrationRules p
    ∧ (∀ e, validateRegistration p = some e →
        register s p = (⟨400, .err e⟩, s)) := by
  constructor
  · simp only [validateRegistration, registrationRules, firstFailure,
      ruleRequired, ruleName, ruleEmail, rulePassword,
      rulePhonePattern, rulePhoneDigits, ruleRole]
    repeat' split <;> simp_all
  · intro e he
    simp [register, he]

/-- Witness for C6 at a payload missing its name field. -/
theorem validateRegistration_first_failure_witness :
    validateRegistration
        { name := none, email := some "a@b.c", phone_number := some "123"
        , password := some "secret1", role := some 2 }
      = firstFailure registrationRules
        { name := none, email := some "a@b.c", phone_number := some "123"
        , password := some "secret1", role := some 2 }
    ∧ register emptyDB
        { name := none, email := some "a@b.c", phone_number := some "123"
        , password := some "secret1", role := some 2 }
      = (⟨400, .err "All fields are required"⟩, emptyDB) :=
  ⟨(validateRegistration_first_failure emptyDB _).1,
   (validateRegistration_first_failure emptyDB _).2 "All fields are required" rfl⟩

/-- C3 counterexample: the claim "no second row with that email is ever
created by a sequential second registration" fails.  With the valid payload
`{name: "Jo Lee", email: "jo@x.com " (trailing space), phone: "123",
password: "secret1", role: 2}` the first registration stores the *trimmed*
email `"jo@x.com"`, the duplicate check of the second registration compares
the *raw* email `"jo@x.com "` against it, misses, and a second row with the
stored email `"jo@x.com"` is created: both calls return 201. -/
theorem register_sequential_duplicate_counterexample :
    (register emptyDB
        { name := some "Jo Lee", email := some "jo@x.com "
        , phone_number := some "123", password := some "secret1"
        , role := some 2 }).1.status = 201
    ∧ (register (register emptyDB
        { name := some "Jo Lee", email := some "jo@x.com "
        , phone_number := some "123", password := some "secret1"
        , role := some 2 }).2
        { name := some "Jo Lee", email := some "jo@x.com "
        , phone_number := some "123", password := some "secret1"
        , role := some 2 }).1.status = 201
    ∧ ((register (register emptyDB
        { name := some "Jo Lee", email := some "jo@x.com "
        , phone_number := some "123", password := some "secret1"
        , role := some 2 }).2
        { name := some "Jo Lee", email := some "jo@x.com "
        , phone_number := some "123", password := some "secret1"
        , role := some 2 }).2.users.filter
          (fun u => u.email == "jo@x.com")).length = 2 := by
  refine ⟨by decide, by decide, by decide⟩

/-- If validation passes but a stored row's email equals the payload's raw
email, `register` takes the duplicate branch: 400 and unchanged state. -/
theorem register_dup_hit (s : DB) (p : RegPayload)
    (hv : validateRegistration p = none)
    (hany : s.users.any (fun v => v.email == p.email.getD "") = true) :
    register s p = (⟨400, .err "Email already registered"⟩, s) := by
  simp [register, hv, hany]

/-- C3 amended: (1) whenever a stored user row's email equals the payload's
raw email string, registration answers 400 and the whole state is unchanged;
(2) for a payload whose email carries no surrounding whitespace
(`jsTrim email = email`), a sequential second registration of the same payload
after a successful one is rejected with 400 and changes nothing.  (With
surrounding whitespace the raw-vs-trimmed mismatch of the counterexample
defeats the duplicate check.) -/
theorem register_duplicate_amended (s : DB) (p : RegPayload) :
    ((∃ u ∈ s.users, u.email = p.email.getD "") →
      (register s p).1.status = 400 ∧ (register s p).2 = s)
    ∧ (∀ e, p.email = some e → jsTrim e = e →
        (register s p).1.status = 201 →
        (register (register s p).2 p).1.status = 400
        ∧ (register (register s p).2 p).2 = (register s p).2) := by
  constructor
  · intro ⟨u, hu, he⟩
    have hany : s.users.any (fun v => v.email == p.email.getD "") = true :=
      List.any_eq_true.mpr ⟨u, hu, by simp [he]⟩
    cases hv : validateRegistration p with
    | some e => simp [register, hv]
    | none => simp [register, hv, hany]
  · intro e he htrim h201
    cases hv : validateRegistration p with
    | some msg => simp [register, hv] at h201
    | none =>
      cases hany : s.users.any (fun v => v.email == p.email.getD "") with
      | true => simp [register, hv, hany] at h201
      | false =>
        have hfst : (register s p).2.users = s.users ++ [regRow s p] := by
          simp [register, hv, hany]
        have hany' : ((register s p).2.users.any
            (fun v => v.email == p.email.getD "")) = true := by
          rw [hfst]
          refine List.any_eq_true.mpr ⟨regRow s p, by simp, ?_⟩
          simp [regRow, he, htrim]
        rw [register_dup_hit (register s p).2 p hv hany']
        exact ⟨rfl, rfl⟩

/-- Witness for C3 amended: part (1) at a database already holding the email,
part (2) at a fresh registration with a whitespace-free email. -/
theorem register_duplicate_amended_witness :
    ((register
        { users := [{ id := 1, name := "Jo", email := "a@b.c"
                    , phone_number := some "123"
                    , password := bcryptHash "secret1", role := 2 }]
        , todos := [], nextUserId := 2, nextTodoId := 1 }
        { name := some "Jo", email := some "a@b.c", phone_number := some "123"
        , password := some "secret1", role := some 2 }).1.status = 400
      ∧ (register
        { users := [{ id := 1, name := "Jo", email := "a@b.c"
                    , phone_number := some "123"
                    , password := bcryptHash "secret1", role := 2 }]
        , todos := [], nextUserId := 2, nextTodoId := 1 }
        { name := some "Jo", email := some "a@b.c", phone_number := some "123"
        , password := some "secret1", role := some 2 }).2
        = { users := [{ id := 1, name := "Jo", email := "a@b.c"
                      , phone_number := some "123"
                      , password := bcryptHash "secret1", role := 2 }]
          , todos := [], nextUserId := 2, nextTodoId := 1 })
    ∧ ((register (register emptyDB
        { name := some "Jo", email := some "a@b.c", phone_number := some "123"
        , password := some "secret1", role := some 2 }).2
        { name := some "Jo", email := some "a@b.c", phone_number := some "123"
        , password := some "secret1", role := some 2 }).1.status = 400
      ∧ (register (register emptyDB
        { name := some "Jo", email := some "a@b.c", phone_number := some "123"
        , password := some "secret1", role := some 2 }).2
        { name := some "Jo", email := some "a@b.c", phone_number := some "123"
        , password := some "secret1", role := some 2 }).2
        = (register emptyDB
        { name := some "Jo", email := some "a@b.c", phone_number := some "123"
        , password := some "secret1", role := some 2 }).2) :=
  ⟨(register_duplicate_amended _ _).1
      ⟨{ id := 1, name := "Jo", email := "a@b.c", phone_number := some "123"
       , password := bcryptHash "secret1", role := 2 }, by simp, rfl⟩,
   (register_duplicate_amended emptyDB _).2 "a@b.c" rfl (by decide) (by decide)⟩

/-- C9: the unauthenticated register route accepts role 1 (Admin): any
payload that passes validation with `role = 1` and a fresh email is answered
201, and the row appended to the users table stores role 1.  `register` takes
no token, claims or auth context of any kind: obtaining the Admin role needs
no prior authentication or authorization. -/
theorem register_admin_role_unauthenticated (s : DB) (p : RegPayload)
    (hval : validateRegistration p = none) (hrole : p.role = some 1)
    (hfresh : s.users.any (fun u => u.email == p.email.getD "") = false) :
    (register s p).1.status = 201
    ∧ (register s p).2.users = s.users ++ [regRow s p]
    ∧ (regRow s p).role = 1 := by
  refine ⟨?_, ?_, by simp [regRow, hrole]⟩ <;> simp [register, hval, hfresh]

/-- Witness for C9: registering `{name: "Ad Min", email: "ad@x.com",
phone: "123", password: "secret1", role: 1}` on the empty database. -/
theorem register_admin_role_unauthenticated_witness :
    (register emptyDB
        { name := some "Ad Min", email := some "ad@x.com"
        , phone_number := some "123", password := some "secret1"
        , role := some 1 }).1.status = 201
    ∧ (register emptyDB
        { name := some "Ad Min", email := some "ad@x.com"
        , phone_number := some "123", password := some "secret1"
        , role := some 1 }).2.users
      = emptyDB.users ++ [regRow emptyDB
        { name := some "Ad Min", email := some "ad@x.com"
        , phone_number := some "123", password := some "secret1"
        , role := some 1 }]
    ∧ (regRow emptyDB
        { name := some "Ad Min", email := some "ad@x.com"
        , phone_number := some "123", password := some "secret1"
        , role := some 1 }).role = 1 :=
  register_admin_role_unauthenticated emptyDB _ (by decide) rfl (by decide)

/-- C5: a login with a registered email and a wrong password and a login with
an email registered to nobody produce the *identical* response — the same 401
status and the same generic body — so the two runs are indistinguishable to
the client (no account enumeration). -/
theorem login_enumeration_safe (s : DB) (secret : String) (now : Nat)
    (e1 p1 e2 p2 : String) (u : UserRow)
    (he1 : e1 ≠ "") (hp1 : p1 ≠ "") (he2 : e2 ≠ "") (hp2 : p2 ≠ "")
    (hfind : s.users.find? (fun v => v.email == e1) = some u)
    (hpw : bcryptCompare p1 u.password = false)
    (hnone : s.users.find? (fun v => v.email == e2) = none) :
    login s secret now (some e1) (some p1) = login s secret now (some e2) (some p2)
    ∧ login s secret now (some e1) (some p1)
        = ⟨401, .err "Invalid email or password"⟩ := by
  have h1 : login s secret now (some e1) (some p1)
      = ⟨401, .err "Invalid email or password"⟩ := by
    simp [login, truthy, he1, hp1, hfind, hpw]
  have h2 : login s secret now (some e2) (some p2)
      = ⟨401, .err "Invalid email or password"⟩ := by
    simp [login, truthy, he2, hp2, hnone]
  exact ⟨h1.trans h2.symm, h1⟩

/-- Witness for C5: one registered user `a@b.c` with password `right`; a
login as `a@b.c` with password `wrong` and a login as the unregistered
`no@x.y` give identical 401 responses. -/
theorem login_enumeration_safe_witness :
    login
      { users := [{ id := 1, name := "Jo", email := "a@b.c"
                  , phone_number := some "123"
                  , password := bcryptHash "right", role := 2 }]
      , todos := [], nextUserId := 2, nextTodoId := 1 }
      "topsecret" 0 (some "a@b.c") (some "wrong")
    = login
      { users := [{ id := 1, name := "Jo", email := "a@b.c"
                  , phone_number := some "123"
                  , password := bcryptHash "right", role := 2 }]
      , todos := [], nextUserId := 2, nextTodoId := 1 }
      "topsecret" 0 (some "no@x.y") (some "xyzzy")
    ∧ login
      { users := [{ id := 1, name := "Jo", email := "a@b.c"
                  , phone_number := some "123"
                  , password := bcryptHash "right", role := 2 }]
      , todos := [], nextUserId := 2, nextTodoId := 1 }
      "topsecret" 0 (some "a@b.c") (some "wrong")
    = ⟨401, .err "Invalid email or password"⟩ :=
  login_enumeration_safe _ "topsecret" 0 "a@b.c" "wrong" "no@x.y" "xyzzy"
    { id := 1, name := "Jo", email := "a@b.c", phone_number := some "123"
    , password := bcryptHash "right", role := 2 }
    (by decide) (by decide) (by decide) (by decide)
    (by decide) (by decide) (by decide)

/-- In a users table with pairwise-distinct ids, deleting by a target id held
by the member `u` is erasing exactly `u`. -/
theorem filter_ne_id_eq_erase (l : List UserRow) (u : UserRow) (tid : Nat)
    (hnd : (l.map (fun v => v.id)).Nodup) (hu : u ∈ l) (hid : u.id = tid) :
    l.filter (fun v => !(v.id == tid)) = l.erase u := by
  induction l with
  | nil => cases hu
  | cons v l ih =>
    rw [List.map_cons, List.nodup_cons] at hnd
    obtain ⟨hv, hnd'⟩ := hnd
    rcases List.mem_cons.mp hu with rfl | hu'
    · rw [List.erase_cons_head, List.filter_cons_of_neg (by simp [hid])]
      refine List.filter_eq_self.mpr fun w hw => ?_
      simp only [Bool.not_eq_eq_eq_not, Bool.not_true, beq_eq_false_iff_ne, ne_eq]
      intro hwid
      exact hv (hid ▸ hwid ▸ List.mem_map.mpr ⟨w, hw, rfl⟩)
    · have hvid : v.id ≠ tid := fun h =>
        hv (h ▸ hid ▸ List.mem_map.mpr ⟨u, hu', rfl⟩)
      have hvu : (v == u) = false :=
        beq_eq_false_iff_ne.mpr fun h => hvid (h ▸ hid)
      rw [List.filter_cons_of_pos (by simp [hvid]),
        List.erase_cons_tail (by simp [hvu]), ih hnd' hu']

/-- C7: for an authenticated admin calling DELETE /api/admin/users/:id,
targeting the admin's own attached user id answers 400 with the whole state
unchanged; targeting a different, existing user (ids pairwise distinct)
answers 200 and removes exactly that user's row, leaving every other user row
and the todos table unchanged. -/
theorem adminDeleteUser_self_and_other (s : DB) (c : Claims) (tid : Nat)
    (u : UserRow) (hadmin : c.role = 1) :
    (tid = c.userId →
      adminDeleteUser c tid s
        = (⟨400, .err "You cannot delete your own account"⟩, s))
    ∧ (tid ≠ c.userId → u ∈ s.users → u.id = tid →
        (s.users.map (fun v => v.id)).Nodup →
        (adminDeleteUser c tid s).1.status = 200
        ∧ (adminDeleteUser c tid s).2.users = s.users.erase u
        ∧ (adminDeleteUser c tid s).2.todos = s.todos) := by
  have hrole : ¬c.role ≠ 1 := not_not_intro hadmin
  constructor
  · intro hself
    simp only [adminDeleteUser, if_neg hrole, if_pos hself]
  · intro hne hu hid hnd
    have hmem : u ∈ s.users.filter (fun v => v.id == tid) :=
      List.mem_filter.mpr ⟨hu, by simp [hid]⟩
    have hlen : ((s.users.filter (fun v => v.id == tid)).length == 0) = false := by
      cases hfl : s.users.filter (fun v => v.id == tid) with
      | nil => rw [hfl] at hmem; cases hmem
      | cons w ws => simp [hfl]
    simp only [adminDeleteUser, if_neg hrole, if_neg hne, hlen, Bool.false_eq_true,
      if_false]
    refine ⟨by simp, ?_, by simp⟩
    exact filter_ne_id_eq_erase s.users u tid hnd hu hid

/-- Witness for C7: an admin (id 1) on a two-user table; deleting id 1 is the
self case, deleting id 2 the other-user case. -/
theorem adminDeleteUser_self_and_other_witness :
    (adminDeleteUser { userId := 1, email := "ad@x.com", role := 1 } 1
      { users := [{ id := 1, name := "Ad", email := "ad@x.com"
                  , phone_number := none, password := bcryptHash "secret1"
                  , role := 1 },
                  { id := 2, name := "Jo", email := "jo@x.com"
                  , phone_number := none, password := bcryptHash "secret2"
                  , role := 2 }]
      , todos := [], nextUserId := 3, nextTodoId := 1 }
      = (⟨400, .err "You cannot delete your own account"⟩,
        { users := [{ id := 1, name := "Ad", email := "ad@x.com"
                    , phone_number := none, password := bcryptHash "secret1"
                    , role := 1 },
                    { id := 2, name := "Jo", email := "jo@x.com"
                    , phone_number := none, password := bcryptHash "secret2"
                    , role := 2 }]
        , todos := [], nextUserId := 3, nextTodoId := 1 }))
    ∧ ((adminDeleteUser { userId := 1, email := "ad@x.com", role := 1 } 2
      { users := [{ id := 1, name := "Ad", email := "ad@x.com"
                  , phone_number := none, password := bcryptHash "secret1"
                  , role := 1 },
                  { id := 2, name := "Jo", email := "jo@x.com"
                  , phone_number := none, password := bcryptHash "secret2"
                  , role := 2 }]
      , todos := [], nextUserId := 3, nextTodoId := 1 }).1.status = 200
    ∧ (adminDeleteUser { userId := 1, email := "ad@x.com", role := 1 } 2
      { users := [{ id := 1, name := "Ad", email := "ad@x.com"
                  , phone_number := none, password := bcryptHash "secret1"
                  , role := 1 },
                  { id := 2, name := "Jo", email := "jo@x.com"
                  , phone_number := none, password := bcryptHash "secret2"
                  , role := 2 }]
      , todos := [], nextUserId := 3, nextTodoId := 1 }).2.users
      = [{ id := 1, name := "Ad", email := "ad@x.com"
         , phone_number := none, password := bcryptHash "secret1"
         , role := 1 },
         { id := 2, name := "Jo", email := "jo@x.com"
         , phone_number := none, password := bcryptHash "secret2"
         , role := 2 }].erase
        { id := 2, name := "Jo", email := "jo@x.com"
        , phone_number := none, password := bcryptHash "secret2", role := 2 }
    ∧ (adminDeleteUser { userId := 1, email := "ad@x.com", role := 1 } 2
      { users := [{ id := 1, name := "Ad", email := "ad@x.com"
                  , phone_number := none, password := bcryptHash "secret1"
                  , role := 1 },
                  { id := 2, name := "Jo", email := "jo@x.com"
                  , phone_number := none, password := bcryptHash "secret2"
                  , role := 2 }]
      , todos := [], nextUserId := 3, nextTodoId := 1 }).2.todos = []) :=
  ⟨(adminDeleteUser_self_and_other _
      { userId := 1, email := "ad@x.com", role := 1 } 1
      { id := 2, name := "Jo", email := "jo@x.com", phone_number := none
      , password := bcryptHash "secret2", role := 2 } rfl).1 rfl,
   (adminDeleteUser_self_and_other _
      { userId := 1, email := "ad@x.com", role := 1 } 2
      { id := 2, name := "Jo", email := "jo@x.com", phone_number := none
      , password := bcryptHash "secret2", role := 2 } rfl).2
      (by decide) (by simp) rfl (by decide)⟩

/-- C10: POST /api/todos (owner-scoped) takes the created task's `user_id`
from the verified token's `userId` claim: the created row's owner is the
authenticated caller, the handler answers 201, and the outcome is identical
for any two bodies agreeing on `title` and `completed` — in particular for
bodies differing only in a client-supplied `user_id` field, which the handler
never reads. -/
theorem createTodo_owner_from_token (uid : Nat) (s : DB) (t1 t2 : TodoObj)
    (ht : truthy t1.title = true)
    (hsame : t2.title = t1.title) (hc : t2.completed = t1.completed) :
    (createTodo uid (some t1) s).1.status = 201
    ∧ (createTodo uid (some t1) s).2.todos
        = s.todos ++ [{ id := s.nextTodoId, user_id := uid
                      , title := t1.title.getD ""
                      , completed := t1.completed.getD false }]
    ∧ createTodo uid (some t2) s = createTodo uid (some t1) s := by
  have h2 : truthy t2.title = true := hsame ▸ ht
  refine ⟨?_, ?_, ?_⟩ <;> simp [createTodo, ht, h2, hsame, hc]

/-- Witness for C10: user 7 creates "Buy milk"; a body that additionally
smuggles `user_id := 999` produces the same result, owned by user 7. -/
theorem createTodo_owner_from_token_witness :
    truthy (some "Buy milk") = true
    ∧ ((createTodo 7 (some { title := some "Buy milk", completed := none
                           , user_id := none }) emptyDB).1.status = 201
    ∧ (createTodo 7 (some { title := some "Buy milk", completed := none
                          , user_id := none }) emptyDB).2.todos
      = emptyDB.todos ++ [{ id := emptyDB.nextTodoId, user_id := 7
                          , title := "Buy milk", completed := false }]
    ∧ createTodo 7 (some { title := some "Buy milk", completed := none
                         , user_id := some 999 }) emptyDB
      = createTodo 7 (some { title := some "Buy milk", completed := none
                           , user_id := none }) emptyDB) :=
  ⟨by decide,
   createTodo_owner_from_token 7 emptyDB
     { title := some "Buy milk", completed := none, user_id := none }
     { title := some "Buy milk", completed := none, user_id := some 999 }
     (by decide) rfl rfl⟩

/-- In a todos table with pairwise-distinct ids, the owner-scoped predicate
`id = ? AND user_id = ?` of user `b` matches nothing when the row holding
that id belongs to a different user `a`. -/
theorem todos_filter_other_owner_eq_nil (l : List TodoRow) (t : TodoRow)
    (a b : Nat) (hnd : (l.map (fun r => r.id)).Nodup) (ht : t ∈ l)
    (howner : t.user_id = a) (hne : b ≠ a) :
    l.filter (fun r => r.id == t.id && r.user_id == b) = [] := by
  rw [List.filter_eq_nil_iff]
  intro r hr
  simp only [Bool.and_eq_true, beq_iff_eq, not_and]
  intro hid
  have hrt : r = t := List.inj_on_of_nodup_map hnd hr ht hid
  rw [hrt, howner]
  exact fun h => hne h.symm

/-- C1: on the owner-scoped /api/todos router, for a task `t` owned by user
`a` and any distinct authenticated user `b` (todo ids pairwise distinct):
the list response for `b` is a 200 that does not contain `t`; an update by
`b` against `t.id` never answers 200, changes nothing, and answers 404
whenever any update field is supplied; a delete by `b` against `t.id`
answers 404 and changes nothing; and a GET of `/api/todos/:id` hits no
registered route, so Express answers 404 with the state unchanged.  Every
read/update/delete query of the router carries the
`user_id = <token user id>` filter by definition. -/
theorem ownerScoped_isolation (s : DB) (a b : Nat) (t : TodoRow)
    (body : TodosReqBody)
    (ht : t ∈ s.todos) (howner : t.user_id = a) (hne : b ≠ a)
    (hnd : (s.todos.map (fun r => r.id)).Nodup) :
    (∃ l, listTodos b s = ⟨200, .todos l⟩ ∧ t ∉ l)
    ∧ (updateTodo b t.id body.title body.completed s).2 = s
    ∧ (updateTodo b t.id body.title body.completed s).1.status ≠ 200
    ∧ ((body.title == none && body.completed == none) = false →
        updateTodo b t.id body.title body.completed s
          = (⟨404, .err "Todo not found or unauthorized"⟩, s))
    ∧ deleteTodo b t.id s = (⟨404, .err "Todo not found or unauthorized"⟩, s)
    ∧ todosDispatch .get (some t.id) b body s = (⟨404, .err "Not found"⟩, s) := by
  have hnil := todos_filter_other_owner_eq_nil s.todos t a b hnd ht howner hne
  have hupd : updateTodo b t.id body.title body.completed s
      = (⟨400, .err "No update data provided"⟩, s)
      ∨ updateTodo b t.id body.title body.completed s
      = (⟨404, .err "Todo not found or unauthorized"⟩, s) := by
    by_cases hb : (body.title == none && body.completed == none) = true
    · left; simp [updateTodo, hb]
    · right; simp [updateTodo, hb, hnil]
  refine ⟨⟨_, rfl, ?_⟩, ?_, ?_, ?_, ?_, rfl⟩
  · simp only [List.mem_reverse, List.mem_filter, beq_iff_eq, howner, not_and]
    exact fun _ h => hne h.symm
  · rcases hupd with h | h <;> rw [h]
  · rcases hupd with h | h <;> rw [h] <;> simp
  · intro hb
    simp [updateTodo, hb, hnil]
  · simp [deleteTodo, hnil]

/-- Witness for C1: user 6 against the single todo (id 1) owned by user 5,
with an update body supplying a new title. -/
theorem ownerScoped_isolation_witness :
    (∃ l, listTodos 6
        { users := [], todos := [{ id := 1, user_id := 5
                                 , title := "Buy milk", completed := false }]
        , nextUserId := 1, nextTodoId := 2 }
      = ⟨200, .todos l⟩
      ∧ { id := 1, user_id := 5, title := "Buy milk"
        , completed := false : TodoRow } ∉ l)
    ∧ (updateTodo 6 1 (some "stolen") none
        { users := [], todos := [{ id := 1, user_id := 5
                                 , title := "Buy milk", completed := false }]
        , nextUserId := 1, nextTodoId := 2 }).2
      = { users := [], todos := [{ id := 1, user_id := 5
                                 , title := "Buy milk", completed := false }]
        , nextUserId := 1, nextTodoId := 2 }
    ∧ (updateTodo 6 1 (some "stolen") none
        { users := [], todos := [{ id := 1, user_id := 5
                                 , title := "Buy milk", completed := false }]
        , nextUserId := 1, nextTodoId := 2 }).1.status ≠ 200
    ∧ (((some "stolen" : Option String) == none
        && (none : Option Bool) == none) = false →
        updateTodo 6 1 (some "stolen") none
        { users := [], todos := [{ id := 1, user_id := 5
                                 , title := "Buy milk", completed := false }]
        , nextUserId := 1, nextTodoId := 2 }
          = (⟨404, .err "Todo not found or unauthorized"⟩,
            { users := [], todos := [{ id := 1, user_id := 5
                                     , title := "Buy milk", completed := false }]
            , nextUserId := 1, nextTodoId := 2 }))
    ∧ deleteTodo 6 1
        { users := [], todos := [{ id := 1, user_id := 5
                                 , title := "Buy milk", completed := false }]
        , nextUserId := 1, nextTodoId := 2 }
      = (⟨404, .err "Todo not found or unauthorized"⟩,
        { users := [], todos := [{ id := 1, user_id := 5
                                 , title := "Buy milk", completed := false }]
        , nextUserId := 1, nextTodoId := 2 })
    ∧ todosDispatch .get (some 1) 6
        { todo := none, title := some "stolen", completed := none }
        { users := [], todos := [{ id := 1, user_id := 5
                                 , title := "Buy milk", completed := false }]
        , nextUserId := 1, nextTodoId := 2 }
      = (⟨404, .err "Not found"⟩,
        { users := [], todos := [{ id := 1, user_id := 5
                                 , title := "Buy milk", completed := false }]
        , nextUserId := 1, nextTodoId := 2 }) :=
  ownerScoped_isolation
    { users := [], todos := [{ id := 1, user_id := 5
                             , title := "Buy milk", completed := false }]
    , nextUserId := 1, nextTodoId := 2 }
    5 6 { id := 1, user_id := 5, title := "Buy milk", completed := false }
    { todo := none, title := some "stolen", completed := none }
    (by simp) rfl (by decide) (by decide)

end TodoBackend
